import Mathlib

/-!
Shallow embedding of the credential-lifecycle and resilient-call layer of the
AppleBusinessANDSchoolManagerAPI scripts, together with proofs of the spec's
testable properties.

Modelling conventions:
- Machine time is `Int` (Python `int(time.time())`).
- Network interaction is modelled by a scripted list of HTTP responses that a
  function consumes in order; the events it emits (requests, sleeps, token
  refreshes) are returned as an explicit trace.
- File-system state for the encrypted token cache is an `Option` of the
  decrypted-and-parsed content; encryption with the configured Fernet key is
  abstracted as the identity on the parsed record (decryption failure or a
  malformed payload is the `some none` state).
-/

namespace AxM

/-- Configuration loaded by `AxM_OAuth._load_config` from AxM_Variables.env.
The private-key path and Fernet key are only used inside the abstracted
signing and encryption steps, so the model keeps the fields the cache and
token-exchange logic actually compares. -/
structure Config where
  clientId : String
  keyId : String
  scope : String
  deriving Repr, DecidableEq

/-- Decrypted, JSON-parsed content of AxM_Token.cache, i.e. the dict written
by `_save_cached_token` (which `_load_cached_token` requires to contain the
keys access_token, expires_at, client_id, scope). -/
structure CacheRecord where
  accessToken : String
  expiresAt : Int
  clientId : String
  scope : String
  tokenType : String
  deriving Repr, DecidableEq

/-- State of the AxM_Token.cache file: `none` means the file is absent;
`some none` means it exists but decryption or JSON parsing fails (or a
required key is missing); `some (some r)` means it decrypts and parses to
the record `r`. -/
abbrev CacheState := Option (Option CacheRecord)

/-- Python truthiness of an optional string: `None` and `""` are falsy. -/
def strTruthy : Option String → Bool
  | none => false
  | some s => !s.isEmpty

/-- The body of `AxM_OAuth._load_cached_token`: returns the cached record only
when the file exists, decrypts and parses, carries the required keys, matches
the configured client_id and scope, and is not yet expired at time `now`. -/
def loadCachedToken (cfg : Config) (st : CacheState) (now : Int) : Option CacheRecord :=
  match st with
  | none => none
  | some none => none
  | some (some cache) =>
    if cache.clientId ≠ cfg.clientId then none
    else if cache.scope ≠ cfg.scope then none
    else if now ≥ cache.expiresAt then none
    else some cache

/-- JSON body of a token-exchange response, as consumed by
`_save_cached_token` and `get_access_token_and_scope`. -/
structure TokenResponse where
  accessToken : Option String
  expiresIn : Option Int
  tokenType : Option String
  scope : Option String
  deriving Repr, DecidableEq

/-- The body of `AxM_OAuth._save_cached_token`: a no-op when access_token is
missing or empty or expires_in is absent; otherwise persists the record with
expires_at = now + max(expires_in - 30, 0). The chmod step is best-effort in
the source and has no counterpart in the file-content model. -/
def saveCachedToken (cfg : Config) (resp : TokenResponse) (now : Int)
    (st : CacheState) : CacheState :=
  match resp.accessToken, resp.expiresIn with
  | some tok, some e =>
    if tok.isEmpty then st
    else
      some (some
        { accessToken := tok
          expiresAt := now + max (e - 30) 0
          clientId := cfg.clientId
          scope := cfg.scope
          tokenType := resp.tokenType.getD "Bearer" })
  | _, _ => st

/-- One HTTP response of the token endpoint: status code, JSON body when it
parses (`none` models a body that fails JSON decoding), and raw text. -/
structure TokenHttpResp where
  code : Nat
  json : Option TokenResponse
  text : String
  deriving Repr, DecidableEq

/-- Observable side effects of `AxM_OAuth`: a POST to the token endpoint, a
sleep of the given number of seconds, and building the ES256 client
assertion (`_build_client_assertion`, a local signing step, counted so that
the cached fast path can be shown to skip it). -/
inductive OAuthEvent where
  | postToken
  | sleep (secs : Int)
  | buildAssertion
  deriving Repr, DecidableEq

/-- Errors raised by the token-exchange path (RuntimeError messages in the
source, distinguished here by their cause). -/
inductive TokenError where
  | rateLimited
  | invalidCredentials
  | tokenError (text : String)
  | missingAccessToken
  | outOfResponses
  deriving Repr, DecidableEq

/-- Handling of a non-429 token-endpoint response inside
`_request_new_token`: HTTP 400 is fatal invalid credentials; any other
status ≥ 400 raises via raise_for_status; a 2xx/3xx with an unparsable body
raises; otherwise the parsed JSON is returned. -/
def handleTokenResp (r : TokenHttpResp) : Except TokenError TokenResponse :=
  if r.code = 400 then .error .invalidCredentials
  else if r.code ≥ 400 then .error (.tokenError r.text)
  else
    match r.json with
    | some t => .ok t
    | none => .error (.tokenError r.text)

/-- The body of `AxM_OAuth._request_new_token`: a `for attempt in (1, 2)` loop
that posts the grant request; on a 429 in attempt 1 it sleeps 60 seconds and
retries once; a 429 in attempt 2 is fatal. The scripted `responses` list
supplies the server's answer to each POST in order. -/
def requestNewToken (responses : List TokenHttpResp) :
    List OAuthEvent × Except TokenError TokenResponse :=
  match responses with
  | [] => ([], .error .outOfResponses)
  | r1 :: rest =>
    if r1.code = 429 then
      match rest with
      | [] => ([.postToken, .sleep 60], .error .outOfResponses)
      | r2 :: _ =>
        if r2.code = 429 then
          ([.postToken, .sleep 60, .postToken], .error .rateLimited)
        else
          ([.postToken, .sleep 60, .postToken], handleTokenResp r2)
    else ([.postToken], handleTokenResp r1)

/-- The body of `AxM_OAuth.get_access_token_and_scope`: consults the cache
first and, on a hit, returns the cached token and scope without building an
assertion or touching the network; otherwise builds the client assertion,
exchanges it, saves the result and returns the fresh token and scope (the
configured scope when the response carries none). Returns the event trace,
the result, and the resulting cache-file state. -/
def getAccessTokenAndScope (cfg : Config) (st : CacheState) (now : Int)
    (responses : List TokenHttpResp) :
    List OAuthEvent × Except TokenError (String × String) × CacheState :=
  match loadCachedToken cfg st now with
  | some cache => ([], .ok (cache.accessToken, cache.scope), st)
  | none =>
    let k := requestNewToken responses
    match k.2 with
    | .error e => (.buildAssertion :: k.1, .error e, st)
    | .ok tok =>
      let st' := saveCachedToken cfg tok now st
      match tok.accessToken with
      | none => (.buildAssertion :: k.1, .error .missingAccessToken, st')
      | some t => (.buildAssertion :: k.1, .ok (t, tok.scope.getD cfg.scope), st')

/-- One HTTP response of a resource-API endpoint as the retry logic inspects
it: status code, the Retry-After header when sent, whether the body parses as
JSON, and the raw text. -/
structure ApiResp where
  code : Nat
  retryAfter : Option String
  bodyOk : Bool
  text : String
  deriving Repr, DecidableEq

/-- Observable side effects of a resource-API call chain: an HTTP request, a
sleep of the given number of seconds, and a forced token regeneration
(get_token_and_base_url with force_new=True). -/
inductive ReqEvent where
  | call
  | sleep (secs : Int)
  | refresh
  deriving Repr, DecidableEq

/-- Number of forced token refreshes in an event trace. -/
def countRefresh : List ReqEvent → Nat
  | [] => 0
  | .refresh :: es => countRefresh es + 1
  | _ :: es => countRefresh es

/-- Python `int(str)` for decimal literals: surrounding whitespace is
stripped, an optional sign is accepted, and the rest must be digits
(digit-grouping underscores are not modelled). `none` is the ValueError
case. -/
def pyInt? (s : String) : Option Int :=
  let cs := ((s.toList.dropWhile Char.isWhitespace).reverse.dropWhile
    Char.isWhitespace).reverse
  match cs with
  | [] => none
  | c :: rest =>
    let signed : Int × List Char :=
      if c = '-' then (-1, rest)
      else if c = '+' then (1, rest)
      else (1, c :: rest)
    if signed.2 = [] then none
    else if signed.2.all Char.isDigit then
      some (signed.1 *
        (signed.2.foldl (fun n ch => 10 * n + (ch.toNat - 48)) (0 : Nat) : Nat))
    else none

/-- The body of `AxM_GetDeviceInfo_FromList.handle_429` (identical in
AxM_AssignUnassign_MdmServers): returns the number of seconds slept — the
integer value of a present, non-empty Retry-After header, else 60. -/
def handle_429 (retryAfter : Option String) : Int :=
  match retryAfter with
  | some s =>
    if s.isEmpty then 60
    else
      match pyInt? s with
      | some n => n
      | none => 60
  | none => 60

/-- The shared per-run token state threaded through fetch_device_info:
access token, base URL, and the one-shot refreshed flag. -/
structure TokenState where
  accessToken : String
  baseUrl : String
  refreshedOnce : Bool
  deriving Repr, DecidableEq

/-- Outcome of `fetch_device_info` for one serial: a parsed JSON payload
(abstracted as the response text), the error-message return, or exhaustion
of the scripted responses. -/
inductive FetchResult where
  | payload (text : String)
  | errorMsg (msg : String)
  | outOfResponses
  deriving Repr, DecidableEq

/-- The body of `AxM_GetDeviceInfo_FromList.fetch_device_info`: recursive
retry consuming one scripted response per request. `fT`/`fB` are the fresh
token and base URL a forced regeneration would produce. On 429 it sleeps per
handle_429 and re-invokes itself; on 401 it refreshes once (flag in the
shared state) and re-invokes itself, or returns the terminal error message
when the flag is already set; 403/400/404/other non-OK map to error-message
returns; a 2xx parses the body. -/
def fetch_device_info (fT fB : String) :
    List ApiResp → TokenState → List ReqEvent × FetchResult × TokenState
  | [], st => ([], .outOfResponses, st)
  | r :: rest, st =>
    if r.code = 429 then
      let k := fetch_device_info fT fB rest st
      (.call :: .sleep (handle_429 r.retryAfter) :: k.1, k.2)
    else if r.code = 401 then
      if st.refreshedOnce = false then
        let k := fetch_device_info fT fB rest ⟨fT, fB, true⟩
        (.call :: .refresh :: k.1, k.2)
      else
        ([.call], .errorMsg "401 Unauthorized even after regenerating token once", st)
    else if r.code = 403 then
      ([.call], .errorMsg ("403 Forbidden — " ++ r.text), st)
    else if r.code = 400 then
      ([.call], .errorMsg ("400 Bad Request — " ++ r.text), st)
    else if r.code = 404 then
      ([.call], .errorMsg "NOT_FOUND", st)
    else if r.code ≥ 400 then
      ([.call], .errorMsg ("HTTP " ++ toString r.code ++ " — " ++ r.text), st)
    else if r.bodyOk then
      ([.call], .payload r.text, st)
    else
      ([.call], .errorMsg ("Failed to parse JSON — " ++ r.text), st)

/-- The body of `AxM_AssignUnassign_MdmServers.post_org_device_activity`: a
while-True loop with local one-shot flags tried_429 and tried_refresh,
consuming one scripted response per POST. A second 429 or a second 401 falls
through to the status checks and (status ≠ 201) raises; success requires a
201 whose body parses. -/
def post_org_device_activity (fT fB : String) :
    List ApiResp → Bool → Bool → List ReqEvent × Except String String
  | [], _, _ => ([], .error "no scripted response")
  | r :: rest, tried429, triedRefresh =>
    if r.code = 429 ∧ tried429 = false then
      let k := post_org_device_activity fT fB rest true triedRefresh
      (.call :: .sleep (handle_429 r.retryAfter) :: k.1, k.2)
    else if r.code = 401 ∧ triedRefresh = false then
      let k := post_org_device_activity fT fB rest tried429 true
      (.call :: .refresh :: k.1, k.2)
    else if r.code = 400 then
      ([.call], .error ("400 Bad Request. Response: " ++ r.text))
    else if r.code = 403 then
      ([.call], .error ("403 Forbidden. Response: " ++ r.text))
    else if r.code = 409 then
      ([.call], .error ("409 Conflict. Response: " ++ r.text))
    else if r.code = 422 then
      ([.call], .error ("422 Unprocessable Entity. Response: " ++ r.text))
    else if r.code ≠ 201 then
      ([.call], .error ("HTTP " ++ toString r.code ++ ". Response: " ++ r.text))
    else if r.bodyOk then
      ([.call], .ok r.text)
    else
      ([.call], .error ("Failed to parse JSON from response: " ++ r.text))

/-- One scripted response of the paginated orgDevices listing: status code,
Retry-After header, and — for a success — the parsed body's data entries and
meta.paging.nextCursor. -/
structure PageResp where
  code : Nat
  retryAfter : Option String
  entries : List String
  nextCursor : Option String
  text : String
  deriving Repr, DecidableEq

/-- Observable side effects of `fetch_all_devices`: a GET carrying the limit
parameter and the cursor parameter actually sent, a sleep, or a forced token
regeneration. -/
inductive ListEvent where
  | request (limit : Nat) (cursor : Option String)
  | sleep (secs : Int)
  | refresh
  deriving Repr, DecidableEq

/-- The loop body of `AxM_OrgDevices_To_CSV.fetch_all_devices`, recursing on
the scripted responses with the current cursor, the one-shot refresh flag and
the accumulated device list. Every request carries limit = 1000 (PAGE_LIMIT,
the Apple maximum) and the cursor parameter only when the cursor is truthy.
The 429 branch sleeps a fixed 60 seconds — this loop never reads Retry-After.
A JSON-parse failure of a success body is not modelled (the source would
raise an uncaught exception there). -/
def fetch_all_devices_go :
    List PageResp → Option String → Bool → List String →
    List ListEvent × Except String (List String)
  | [], _, _, _ => ([], .error "no scripted response")
  | r :: rest, cursor, refreshed, acc =>
    let req := ListEvent.request 1000 (if strTruthy cursor then cursor else none)
    if r.code = 429 then
      let k := fetch_all_devices_go rest cursor refreshed acc
      (req :: .sleep 60 :: k.1, k.2)
    else if r.code = 401 then
      if refreshed = false then
        let k := fetch_all_devices_go rest cursor true acc
        (req :: .refresh :: k.1, k.2)
      else
        ([req], .error "HTTP 401 Unauthorized even after regenerating token.")
    else if r.code = 403 then
      ([req], .error "HTTP 403 Forbidden. Check API permissions / scope.")
    else if r.code = 400 then
      ([req], .error ("HTTP 400 Bad Request. Response: " ++ r.text))
    else if r.code ≥ 400 then
      ([req], .error ("HTTP " ++ toString r.code ++ ". Response: " ++ r.text))
    else
      let acc' := acc ++ r.entries
      if strTruthy r.nextCursor then
        let k := fetch_all_devices_go rest r.nextCursor refreshed acc'
        (req :: k.1, k.2)
      else ([req], .ok acc')

/-- Entry point of `fetch_all_devices`: cursor starts as None, the refresh
flag unset, the accumulator empty. -/
def fetch_all_devices (responses : List PageResp) :
    List ListEvent × Except String (List String) :=
  fetch_all_devices_go responses none false []

/-- Every page before the last answers with a truthy continuation cursor. -/
def innerCursorsSome : List PageResp → Bool
  | [] => true
  | [_] => true
  | r :: r2 :: rest => strTruthy r.nextCursor && innerCursorsSome (r2 :: rest)

/-- The last page answers with no (or an empty) continuation cursor. -/
def lastCursorNone : List PageResp → Bool
  | [] => true
  | [r] => !(strTruthy r.nextCursor)
  | _ :: r2 :: rest => lastCursorNone (r2 :: rest)

/-- Character-list helper for Python's substring test: does the first list
start with the second? -/
def charsStartWith : List Char → List Char → Bool
  | _, [] => true
  | [], _ :: _ => false
  | a :: h, b :: n => a == b && charsStartWith h n

/-- Character-list helper for Python's substring test: does the second list
occur contiguously inside the first? -/
def charsContain : List Char → List Char → Bool
  | [], n => n.isEmpty
  | c :: t, n => charsStartWith (c :: t) n || charsContain t n

/-- Python `needle in haystack` on strings. -/
def pyContains (haystack needle : String) : Bool :=
  charsContain haystack.toList needle.toList

/-- Python `str.lower()` (ASCII case mapping, which covers the scope strings
involved). -/
def pyLower (s : String) : String :=
  String.mk (s.toList.map Char.toLower)

/-- Base URL of the school tenant's orgDevices endpoint. -/
def schoolBaseUrl : String := "https://api-school.apple.com/v1/orgDevices"

/-- Base URL of the business tenant's orgDevices endpoint. -/
def businessBaseUrl : String := "https://api-business.apple.com/v1/orgDevices"

/-- The scope-to-base-URL mapping inside
`AxM_OrgDevices_To_CSV.get_token_and_url`: lowercase the scope, test for the
substring "school" first, then "business", else raise. -/
def scopeToBaseUrl (scope : String) : Except String String :=
  if pyContains (pyLower scope) "school" then .ok schoolBaseUrl
  else if pyContains (pyLower scope) "business" then .ok businessBaseUrl
  else .error ("Unrecognized scope '" ++ scope ++
    "'. Expected 'school.api' or 'business.api'.")

/-- One HTTP response of the signed download URL, as
`download_activity_csv` inspects it: status code, the Content-Disposition
header, and raw text. -/
structure DownloadResp where
  code : Nat
  contentDisposition : Option String
  text : String
  deriving Repr, DecidableEq

/-- Python `str.strip(chars)`: drop the characters satisfying `p` from both
ends. -/
def stripChars (p : Char → Bool) (s : String) : String :=
  String.mk (((s.toList.dropWhile p).reverse.dropWhile p).reverse)

/-- Filename extraction of `download_activity_csv`: when the
Content-Disposition header contains "filename=", take the text after the
first occurrence, strip whitespace, semicolons and whitespace again, and
remove one pair of surrounding double quotes. -/
def parseDispositionFilename (contentDisp : Option String) : Option String :=
  match contentDisp with
  | none => none
  | some c =>
    if pyContains c "filename=" then
      match c.splitOn "filename=" with
      | _ :: p :: _ =>
        let r1 := stripChars Char.isWhitespace p
        let r2 := stripChars (fun ch => ch == ';') r1
        let r3 := stripChars Char.isWhitespace r2
        if r3.startsWith "\"" && r3.endsWith "\"" then
          some ((r3.drop 1).dropRight 1)
        else some r3
      | _ => none
    else none

/-- Final filename of `download_activity_csv`: the parsed disposition name
when truthy, else the deterministic fallback keyed by the activity id. -/
def downloadFilename (contentDisp : Option String) (activityId : String) : String :=
  match parseDispositionFilename contentDisp with
  | some f => if f.isEmpty then "OrgDeviceActivity_" ++ activityId ++ ".csv" else f
  | none => "OrgDeviceActivity_" ++ activityId ++ ".csv"

/-- The body of `AxM_AssignUnassign_MdmServers.download_activity_csv`: a
non-200 status raises; otherwise the body is saved under the derived
filename, which is returned. -/
def download_activity_csv (resp : DownloadResp) (activityId : String) :
    Except String String :=
  if resp.code ≠ 200 then
    .error ("Failed to download CSV. HTTP " ++ toString resp.code ++ ": " ++ resp.text)
  else .ok (downloadFilename resp.contentDisposition activityId)

/-- Outcome of the conditional download step at the end of
`AxM_AssignUnassign_MdmServers.main`: the saved path if any, whether an
exception escaped (never — the download call is wrapped in try/except),
whether the "not ready" message was logged, and whether a download error was
logged. -/
structure DownloadPhaseResult where
  path : Option String
  raisedError : Bool
  notReadyLogged : Bool
  downloadErrorLogged : Bool
  deriving Repr, DecidableEq

/-- The conditional download step of `main`: download if and only if the
polled status equals "COMPLETED" and the downloadUrl attribute is truthy;
any exception from the download is caught and logged; any other
status/URL combination logs that the CSV is not downloaded. -/
def mainDownloadPhase (curStatus : String) (downloadUrl : Option String)
    (resp : DownloadResp) (activityId : String) : DownloadPhaseResult :=
  if curStatus = "COMPLETED" ∧ strTruthy downloadUrl = true then
    match download_activity_csv resp activityId with
    | .ok p => ⟨some p, false, false, false⟩
    | .error _ => ⟨none, false, false, true⟩
  else ⟨none, false, true, false⟩

/-- The fields of the activity-creation response that
`AxM_AssignUnassign_MdmServers.main` reads to decide how to continue:
resp.get("data", {}).get("id", ""). -/
structure SubmitResp where
  dataId : Option String
  deriving Repr, DecidableEq

/-- How `main` continues after the activity submission returns: proceed to
the status poll with the returned id, stop with a WARN log and a normal
return, or abort with a raised error. -/
inductive SubmitFollowup where
  | stopWithWarning
  | proceedToPoll (activityId : String)
  | fatalError (msg : String)
  deriving Repr, DecidableEq

/-- True only for the raised-error continuation. -/
def SubmitFollowup.isFatal : SubmitFollowup → Bool
  | .fatalError _ => true
  | _ => false

/-- The id check in `main` after post_org_device_activity succeeds:
activity_id = data.get("id", ""); a falsy id prints a WARN and returns,
otherwise the run proceeds to the status poll. -/
def mainAfterSubmit (resp : SubmitResp) : SubmitFollowup :=
  let activityId := resp.dataId.getD ""
  if activityId.isEmpty then .stopWithWarning
  else .proceedToPoll activityId

end AxM

namespace AxM

/-- Claim C1: a cached record that decrypts and parses, matches the configured
client identifier and scope, and expires strictly in the future is returned
as-is by the token acquisition, with an empty event trace: no client
assertion is built and no token-exchange POST is made, and the cache file is
untouched. -/
theorem c1_cached_token_fast_path (cfg : Config) (c : CacheRecord) (now : Int)
    (responses : List TokenHttpResp)
    (hcid : c.clientId = cfg.clientId) (hscope : c.scope = cfg.scope)
    (hexp : now < c.expiresAt) :
    getAccessTokenAndScope cfg (some (some c)) now responses
      = ([], .ok (c.accessToken, c.scope), some (some c)) := by
  simp [getAccessTokenAndScope, loadCachedToken, hcid, hscope, ge_iff_le,
    hexp.not_le]

/-- Witness for C1 at a concrete configuration, cache record and clock. -/
theorem c1_cached_token_fast_path_witness :
    getAccessTokenAndScope ⟨"cid", "kid", "business.api"⟩
        (some (some ⟨"tok", 1000, "cid", "business.api", "Bearer"⟩)) 900 []
      = ([], .ok ("tok", "business.api"),
          some (some ⟨"tok", 1000, "cid", "business.api", "Bearer"⟩)) :=
  c1_cached_token_fast_path ⟨"cid", "kid", "business.api"⟩
    ⟨"tok", 1000, "cid", "business.api", "Bearer"⟩ 900 [] rfl rfl (by decide)

/-- Claim C3: during a token exchange, a 429 causes a 60-second sleep and
exactly one retry of the same POST (the trace holds exactly two POSTs with
the sleep in between, and the outcome is that of the second response); a
second consecutive 429 is the fatal rate-limited error; HTTP 400 on the
first or the retried attempt is the fatal invalid-credentials error with no
further POST. -/
theorem c3_token_exchange_retry :
    (∀ (r1 r2 : TokenHttpResp) (rest : List TokenHttpResp),
        r1.code = 429 → r2.code ≠ 429 →
        requestNewToken (r1 :: r2 :: rest)
          = ([.postToken, .sleep 60, .postToken], handleTokenResp r2)) ∧
    (∀ (r1 r2 : TokenHttpResp) (rest : List TokenHttpResp),
        r1.code = 429 → r2.code = 429 →
        requestNewToken (r1 :: r2 :: rest)
          = ([.postToken, .sleep 60, .postToken], .error .rateLimited)) ∧
    (∀ (r1 : TokenHttpResp) (rest : List TokenHttpResp), r1.code = 400 →
        requestNewToken (r1 :: rest) = ([.postToken], .error .invalidCredentials)) ∧
    (∀ (r1 r2 : TokenHttpResp) (rest : List TokenHttpResp),
        r1.code = 429 → r2.code = 400 →
        requestNewToken (r1 :: r2 :: rest)
          = ([.postToken, .sleep 60, .postToken], .error .invalidCredentials)) := by
  refine ⟨?_, ?_, ?_, ?_⟩
  · intro r1 r2 rest h1 h2
    simp [requestNewToken, h1, h2]
  · intro r1 r2 rest h1 h2
    simp [requestNewToken, h1, h2]
  · intro r1 rest h1
    simp [requestNewToken, h1, handleTokenResp]
  · intro r1 r2 rest h1 h2
    simp [requestNewToken, h1, h2, handleTokenResp]

/-- Witness for C3: two consecutive 429 responses give the fatal rate-limited
error after exactly one 60-second wait and one retry. -/
theorem c3_token_exchange_retry_witness :
    requestNewToken [⟨429, none, "slow down"⟩, ⟨429, none, "slow down"⟩]
      = ([.postToken, .sleep 60, .postToken], .error .rateLimited) :=
  c3_token_exchange_retry.2.1 ⟨429, none, "slow down"⟩ ⟨429, none, "slow down"⟩
    [] rfl rfl

/-- Claim C4: writing a token response carrying a non-empty access token and a
declared lifetime, then reading the cache back with the same configuration at
any instant after the write and before the stored expiry, yields a record
whose token string and scope are exactly what was written, and whose expiry
precedes the end of the server-declared lifetime (write time + expires_in) by
at least 30 seconds. -/
theorem c4_cache_round_trip (cfg : Config) (resp : TokenResponse) (tok : String)
    (e : Int) (noww nowr : Int) (st : CacheState)
    (htok : resp.accessToken = some tok) (hne : tok.isEmpty = false)
    (he : resp.expiresIn = some e)
    (horder : noww ≤ nowr)
    (hbefore : nowr < noww + max (e - 30) 0) :
    ∃ rec : CacheRecord,
      loadCachedToken cfg (saveCachedToken cfg resp noww st) nowr = some rec ∧
      rec.accessToken = tok ∧ rec.scope = cfg.scope ∧
      rec.expiresAt + 30 ≤ noww + e := by
  refine ⟨{ accessToken := tok
            expiresAt := noww + max (e - 30) 0
            clientId := cfg.clientId
            scope := cfg.scope
            tokenType := resp.tokenType.getD "Bearer" }, ?load, rfl, rfl, ?bound⟩
  case load =>
    simp [saveCachedToken, htok, he, hne, loadCachedToken, ge_iff_le,
      hbefore.not_le]
  case bound =>
    show noww + max (e - 30) 0 + 30 ≤ noww + e
    omega

/-- Witness for C4: a 3600-second lifetime written at time 100 and read back
at time 100 round-trips and carries expiry 100 + 3570, 30 seconds short of
100 + 3600. -/
theorem c4_cache_round_trip_witness :
    ∃ rec : CacheRecord,
      loadCachedToken ⟨"cid", "kid", "school.api"⟩
          (saveCachedToken ⟨"cid", "kid", "school.api"⟩
            ⟨some "tok", some 3600, some "Bearer", some "school.api"⟩ 100 none)
          100 = some rec ∧
      rec.accessToken = "tok" ∧ rec.scope = "school.api" ∧
      rec.expiresAt + 30 ≤ 100 + 3600 :=
  c4_cache_round_trip ⟨"cid", "kid", "school.api"⟩
    ⟨some "tok", some 3600, some "Bearer", some "school.api"⟩ "tok" 3600 100 100
    none rfl rfl rfl (by decide) (by decide)

/-- Claim C10: a token response whose access-token field is missing or empty,
or whose expires-in field is absent, makes the cache write a silent no-op:
the function is total (raises nothing) and returns the persisted cache state
unchanged. -/
theorem c10_save_noop (cfg : Config) (resp : TokenResponse) (now : Int)
    (st : CacheState)
    (h : strTruthy resp.accessToken = false ∨ resp.expiresIn = none) :
    saveCachedToken cfg resp now st = st := by
  rcases ha : resp.accessToken with _ | tok <;>
    rcases hex : resp.expiresIn with _ | e <;>
      simp [saveCachedToken, ha, hex, strTruthy] at h ⊢
  simp [h]

/-- Witness for C10: a response with an empty access token and a lifetime
leaves an absent cache file absent. -/
theorem c10_save_noop_witness :
    saveCachedToken ⟨"cid", "kid", "school.api"⟩
        ⟨some "", some 3600, none, none⟩ 100 none = none :=
  c10_save_noop ⟨"cid", "kid", "school.api"⟩ ⟨some "", some 3600, none, none⟩
    100 none (Or.inl rfl)

/-- Once the shared one-shot flag is set, fetch_device_info never refreshes
again, whatever responses arrive. -/
theorem fetch_no_refresh_when_flagged (fT fB : String) (rs : List ApiResp) :
    ∀ st : TokenState, st.refreshedOnce = true →
    countRefresh (fetch_device_info fT fB rs st).1 = 0 := by
  induction rs with
  | nil => intro st h; simp [fetch_device_info, countRefresh]
  | cons r rest ih =>
    intro st h
    simp only [fetch_device_info]
    split_ifs <;> simp_all [countRefresh, ih st h]

/-- A fetch_device_info call chain performs at most one forced refresh. -/
theorem fetch_at_most_one_refresh (fT fB : String) (rs : List ApiResp) :
    ∀ st : TokenState, countRefresh (fetch_device_info fT fB rs st).1 ≤ 1 := by
  induction rs with
  | nil => intro st; simp [fetch_device_info, countRefresh]
  | cons r rest ih =>
    intro st
    simp only [fetch_device_info]
    split_ifs <;>
      simp_all [countRefresh, ih st,
        fetch_no_refresh_when_flagged fT fB rest ⟨fT, fB, true⟩ rfl]

/-- Once the local tried_refresh flag is set, post_org_device_activity never
refreshes again. -/
theorem post_no_refresh_when_tried (fT fB : String) (rs : List ApiResp) :
    ∀ t4 : Bool,
    countRefresh (post_org_device_activity fT fB rs t4 true).1 = 0 := by
  induction rs with
  | nil => intro t4; simp [post_org_device_activity, countRefresh]
  | cons r rest ih =>
    intro t4
    simp only [post_org_device_activity]
    split_ifs <;> simp_all [countRefresh, ih true, ih t4]

/-- A post_org_device_activity call chain performs at most one forced
refresh. -/
theorem post_at_most_one_refresh (fT fB : String) (rs : List ApiResp) :
    ∀ t4 t5 : Bool,
    countRefresh (post_org_device_activity fT fB rs t4 t5).1 ≤ 1 := by
  induction rs with
  | nil => intro t4 t5; simp [post_org_device_activity, countRefresh]
  | cons r rest ih =>
    intro t4 t5
    simp only [post_org_device_activity]
    split_ifs <;>
      simp_all [countRefresh, ih true t5, ih t4,
        post_no_refresh_when_tried fT fB rest t4]

/-- Claim C2: per-item call chains refresh the token at most once. For
fetch_device_info the one-shot flag lives in the shared token state: a trace
never holds more than one refresh, a set flag forbids any refresh, a 401
with the flag set is the terminal per-item error, and any run of n ≥ 2
consecutive 401 responses ends after exactly two requests and one refresh
with that error — never an unbounded refresh loop. The same one-shot
discipline holds for post_org_device_activity with its local tried_refresh
flag. -/
theorem c2_single_refresh_per_run (fT fB : String) :
    (∀ (rs : List ApiResp) (st : TokenState),
        countRefresh (fetch_device_info fT fB rs st).1 ≤ 1) ∧
    (∀ (rs : List ApiResp) (st : TokenState), st.refreshedOnce = true →
        countRefresh (fetch_device_info fT fB rs st).1 = 0) ∧
    (∀ (r : ApiResp) (rs : List ApiResp) (st : TokenState),
        r.code = 401 → st.refreshedOnce = true →
        fetch_device_info fT fB (r :: rs) st
          = ([.call],
             .errorMsg "401 Unauthorized even after regenerating token once",
             st)) ∧
    (∀ (n : Nat), 2 ≤ n → ∀ (a b : String),
        fetch_device_info fT fB (List.replicate n ⟨401, none, false, ""⟩)
            ⟨a, b, false⟩
          = ([.call, .refresh, .call],
             .errorMsg "401 Unauthorized even after regenerating token once",
             ⟨fT, fB, true⟩)) ∧
    (∀ (rs : List ApiResp) (t4 : Bool),
        countRefresh (post_org_device_activity fT fB rs t4 true).1 = 0) ∧
    (∀ (rs : List ApiResp) (t4 t5 : Bool),
        countRefresh (post_org_device_activity fT fB rs t4 t5).1 ≤ 1) ∧
    (∀ rest : List ApiResp,
        post_org_device_activity fT fB
            (⟨401, none, false, ""⟩ :: ⟨401, none, false, ""⟩ :: rest)
            false false
          = ([.call, .refresh, .call], .error "HTTP 401. Response: ")) := by
  refine ⟨fun rs st => fetch_at_most_one_refresh fT fB rs st,
    fun rs st h => fetch_no_refresh_when_flagged fT fB rs st h,
    ?_, ?_,
    fun rs t4 => post_no_refresh_when_tried fT fB rs t4,
    fun rs t4 t5 => post_at_most_one_refresh fT fB rs t4 t5, ?_⟩
  · intro r rs st h401 hflag
    simp [fetch_device_info, h401, hflag]
  · intro n hn a b
    obtain ⟨m, rfl⟩ : ∃ m, n = m + 2 := ⟨n - 2, by omega⟩
    rfl
  · intro rest
    rfl

/-- Witness for C2: two consecutive 401 responses from a fresh state give the
terminal error after one refresh and two requests. -/
theorem c2_single_refresh_per_run_witness :
    fetch_device_info "tNew" "uNew" (List.replicate 2 ⟨401, none, false, ""⟩)
        ⟨"tOld", "uOld", false⟩
      = ([.call, .refresh, .call],
         .errorMsg "401 Unauthorized even after regenerating token once",
         ⟨"tNew", "uNew", true⟩) :=
  (c2_single_refresh_per_run "tNew" "uNew").2.2.2.1 2 (by decide) "tOld" "uOld"

/-- Counterexample to C5 as stated: in the paginated orgDevices listing a 429
carrying Retry-After: 5 is followed by a 60-second sleep, not a 5-second
one — that loop never reads the header. -/
theorem c5_counterexample :
    (fetch_all_devices
        [⟨429, some "5", [], none, ""⟩, ⟨200, none, [], none, ""⟩]).1
      = [.request 1000 none, .sleep 60, .request 1000 none] ∧
    (60 : Int) ≠ 5 :=
  ⟨rfl, by decide⟩

/-- Claim C5 as amended: requests routed through the shared handle_429 helper
(the per-item device fetch and the activity endpoints) sleep exactly the
integer value of a present, parsable Retry-After header and 60 seconds when
it is absent or unparsable; the paginated orgDevices listing, by contrast,
sleeps a fixed 60 seconds on every 429 regardless of the header. -/
theorem c5_retry_after_sleep (fT fB : String) :
    (∀ (s : String) (n : Int), s.isEmpty = false → pyInt? s = some n →
        handle_429 (some s) = n) ∧
    (∀ s : String, pyInt? s = none → handle_429 (some s) = 60) ∧
    handle_429 none = 60 ∧
    (∀ (r : ApiResp) (rs : List ApiResp) (st : TokenState), r.code = 429 →
        fetch_device_info fT fB (r :: rs) st
          = (.call :: .sleep (handle_429 r.retryAfter)
              :: (fetch_device_info fT fB rs st).1,
             (fetch_device_info fT fB rs st).2)) ∧
    (∀ (r : PageResp) (rs : List PageResp) (cursor : Option String)
        (refreshed : Bool) (acc : List String), r.code = 429 →
        (fetch_all_devices_go (r :: rs) cursor refreshed acc).1
          = ListEvent.request 1000 (if strTruthy cursor then cursor else none)
            :: .sleep 60 :: (fetch_all_devices_go rs cursor refreshed acc).1) := by
  refine ⟨?_, ?_, rfl, ?_, ?_⟩
  · intro s n hne hp
    simp [handle_429, hne, hp]
  · intro s hp
    by_cases hne : s.isEmpty
    · simp [handle_429, hne]
    · simp [handle_429, hne, hp]
  · intro r rs st h429
    simp [fetch_device_info, h429]
  · intro r rs cursor refreshed acc h429
    simp [fetch_all_devices_go, h429]

/-- Witness for C5 (amended): Retry-After: 5 makes handle_429 sleep exactly
5 seconds. -/
theorem c5_retry_after_sleep_witness : handle_429 (some "5") = 5 :=
  (c5_retry_after_sleep "t" "u").1 "5" 5 (by decide) (by decide)

/-- Step equation of the pagination loop: a 200 page with a truthy
continuation cursor emits one request and loops on the rest with the new
cursor and the extended accumulator. -/
theorem fetch_all_go_step (r : PageResp) (rest : List PageResp)
    (cursor : Option String) (refreshed : Bool) (acc : List String)
    (hr : r.code = 200) (hcur : strTruthy r.nextCursor = true) :
    fetch_all_devices_go (r :: rest) cursor refreshed acc
      = (ListEvent.request 1000 (if strTruthy cursor then cursor else none)
          :: (fetch_all_devices_go rest r.nextCursor refreshed
              (acc ++ r.entries)).1,
         (fetch_all_devices_go rest r.nextCursor refreshed
            (acc ++ r.entries)).2) := by
  simp only [fetch_all_devices_go]
  simp [hr, hcur]

/-- Step equation of the pagination loop: a 200 page with no (or an empty)
continuation cursor emits one request and stops with the extended
accumulator. -/
theorem fetch_all_go_last (r : PageResp) (rest : List PageResp)
    (cursor : Option String) (refreshed : Bool) (acc : List String)
    (hr : r.code = 200) (hcur : strTruthy r.nextCursor = false) :
    fetch_all_devices_go (r :: rest) cursor refreshed acc
      = ([ListEvent.request 1000 (if strTruthy cursor then cursor else none)],
         .ok (acc ++ r.entries)) := by
  simp only [fetch_all_devices_go]
  simp [hr, hcur]

/-- Invariant of the pagination loop: from any cursor, flag and accumulator,
a scripted run of 200-pages whose inner pages all return a truthy cursor and
whose last page returns none ends with the accumulator extended by the
concatenated page entries, one request event per page, every one a
limit-1000 request. -/
theorem fetch_all_go_pages :
    ∀ (pages : List PageResp) (cursor : Option String) (refreshed : Bool)
      (acc : List String),
      pages ≠ [] → (∀ r ∈ pages, r.code = 200) →
      innerCursorsSome pages = true → lastCursorNone pages = true →
      (fetch_all_devices_go pages cursor refreshed acc).2
          = .ok (acc ++ (pages.map PageResp.entries).flatten) ∧
      (fetch_all_devices_go pages cursor refreshed acc).1.length
          = pages.length ∧
      ∀ e ∈ (fetch_all_devices_go pages cursor refreshed acc).1,
        ∃ c, e = ListEvent.request 1000 c := by
  intro pages
  induction pages with
  | nil => intro cursor refreshed acc hne; exact absurd rfl hne
  | cons r rest ih =>
    intro cursor refreshed acc _ h200 hinner hlast
    have hr : r.code = 200 := h200 r (by simp)
    cases rest with
    | nil =>
      have hcur : strTruthy r.nextCursor = false := by
        simpa [lastCursorNone] using hlast
      rw [fetch_all_go_last r [] cursor refreshed acc hr hcur]
      refine ⟨by simp, rfl, ?_⟩
      intro e he
      simp at he
      exact ⟨_, he⟩
    | cons r2 rest2 =>
      have hcur : strTruthy r.nextCursor = true := by
        simp [innerCursorsSome] at hinner
        exact hinner.1
      have hinner2 : innerCursorsSome (r2 :: rest2) = true := by
        simp [innerCursorsSome] at hinner ⊢
        exact hinner.2
      have hlast2 : lastCursorNone (r2 :: rest2) = true := by
        simpa [lastCursorNone] using hlast
      have h200b : ∀ x ∈ r2 :: rest2, x.code = 200 := fun x hx =>
        h200 x (by simp [hx])
      obtain ⟨ih1, ih2, ih3⟩ :=
        ih r.nextCursor refreshed (acc ++ r.entries) (by simp) h200b hinner2
          hlast2
      rw [fetch_all_go_step r (r2 :: rest2) cursor refreshed acc hr hcur]
      refine ⟨?_, ?_, ?_⟩
      · simpa [List.append_assoc] using ih1
      · simpa using ih2
      · intro e he
        simp at he
        rcases he with he | he
        · exact ⟨_, he⟩
        · exact ih3 e he

/-- Claim C6: over a scripted page sequence in which every page except the
last returns a continuation cursor and the last returns none, the paginated
fetch terminates with exactly the concatenation of the per-page entry lists
in page order; it issues one request per page, each carrying the fixed
limit-1000 page-size parameter, and the result length is the sum of the
per-page counts. -/
theorem c6_pagination_concat (pages : List PageResp)
    (hne : pages ≠ []) (h200 : ∀ r ∈ pages, r.code = 200)
    (hinner : innerCursorsSome pages = true)
    (hlast : lastCursorNone pages = true) :
    (fetch_all_devices pages).2 = .ok (pages.map PageResp.entries).flatten ∧
    (fetch_all_devices pages).1.length = pages.length ∧
    (∀ e ∈ (fetch_all_devices pages).1, ∃ c, e = ListEvent.request 1000 c) ∧
    (pages.map PageResp.entries).flatten.length
      = (pages.map fun r => r.entries.length).sum := by
  obtain ⟨h1, h2, h3⟩ :=
    fetch_all_go_pages pages none false [] hne h200 hinner hlast
  refine ⟨by simpa [fetch_all_devices] using h1,
    by simpa [fetch_all_devices] using h2,
    by simpa [fetch_all_devices] using h3, ?_⟩
  simp [List.length_flatten, List.map_map, Function.comp_def]

/-- Witness for C6: two pages of sizes 2 and 1 linked by one cursor
accumulate exactly the three entries in order. -/
theorem c6_pagination_concat_witness :
    (fetch_all_devices
        [⟨200, none, ["a", "b"], some "c1", ""⟩,
         ⟨200, none, ["c"], none, ""⟩]).2
        = .ok ((([⟨200, none, ["a", "b"], some "c1", ""⟩,
            ⟨200, none, ["c"], none, ""⟩] : List PageResp).map
            PageResp.entries).flatten) ∧
    (fetch_all_devices
        [⟨200, none, ["a", "b"], some "c1", ""⟩,
         ⟨200, none, ["c"], none, ""⟩]).1.length = 2 ∧
    (∀ e ∈ (fetch_all_devices
        [⟨200, none, ["a", "b"], some "c1", ""⟩,
         ⟨200, none, ["c"], none, ""⟩]).1,
        ∃ c, e = ListEvent.request 1000 c) ∧
    ((([⟨200, none, ["a", "b"], some "c1", ""⟩,
        ⟨200, none, ["c"], none, ""⟩] : List PageResp).map
        PageResp.entries).flatten.length
      = (([⟨200, none, ["a", "b"], some "c1", ""⟩,
          ⟨200, none, ["c"], none, ""⟩] : List PageResp).map
          fun r => r.entries.length).sum) :=
  c6_pagination_concat
    [⟨200, none, ["a", "b"], some "c1", ""⟩, ⟨200, none, ["c"], none, ""⟩]
    (by decide) (by decide) (by decide) (by decide)

/-- Counterexample to C7 as stated: the scope "school-business.api" contains
"business" yet resolves to the school host, because the school test runs
first — so "any scope containing business resolves to the business host" is
false. -/
theorem c7_counterexample :
    pyContains (pyLower "school-business.api") "business" = true ∧
    scopeToBaseUrl "school-business.api" = .ok schoolBaseUrl ∧
    schoolBaseUrl ≠ businessBaseUrl :=
  ⟨by decide, rfl, by decide⟩

/-- Claim C7 as amended: the mapping is a pure function of the scope string;
a lowercased scope containing "school" resolves to the school host, one
containing "business" but not "school" resolves to the business host, and
one containing neither raises the unrecognized-scope error; in particular
"schooldistrict.api" resolves to the school host, "business.api" to the
business host, and "enterprise" errors. -/
theorem c7_scope_mapping (scope : String) :
    (pyContains (pyLower scope) "school" = true →
        scopeToBaseUrl scope = .ok schoolBaseUrl) ∧
    (pyContains (pyLower scope) "school" = false →
        pyContains (pyLower scope) "business" = true →
        scopeToBaseUrl scope = .ok businessBaseUrl) ∧
    (pyContains (pyLower scope) "school" = false →
        pyContains (pyLower scope) "business" = false →
        scopeToBaseUrl scope
          = .error ("Unrecognized scope '" ++ scope ++
              "'. Expected 'school.api' or 'business.api'.")) ∧
    scopeToBaseUrl "schooldistrict.api" = .ok schoolBaseUrl ∧
    scopeToBaseUrl "business.api" = .ok businessBaseUrl ∧
    scopeToBaseUrl "enterprise"
      = .error
          "Unrecognized scope 'enterprise'. Expected 'school.api' or 'business.api'." := by
  refine ⟨?_, ?_, ?_, rfl, rfl, rfl⟩
  · intro h
    simp [scopeToBaseUrl, h]
  · intro h1 h2
    simp [scopeToBaseUrl, h1, h2]
  · intro h1 h2
    simp [scopeToBaseUrl, h1, h2]

/-- Witness for C7 (amended): "schooldistrict.api" resolves to the school
host by the substring test. -/
theorem c7_scope_mapping_witness :
    scopeToBaseUrl "schooldistrict.api" = .ok schoolBaseUrl :=
  (c7_scope_mapping "schooldistrict.api").1 (by decide)

/-- Claim C8: when the download itself answers 200, the conditional download
step yields a saved path exactly when the polled status is COMPLETED and the
download URL is truthy; no exception ever escapes it, and every other
status/URL combination produces no path, no error, only the not-ready log. -/
theorem c8_maybe_download (st : String) (url : Option String)
    (resp : DownloadResp) (aid : String) (hok : resp.code = 200) :
    ((mainDownloadPhase st url resp aid).path.isSome
        ↔ (st = "COMPLETED" ∧ strTruthy url = true)) ∧
    (mainDownloadPhase st url resp aid).raisedError = false ∧
    (¬ (st = "COMPLETED" ∧ strTruthy url = true) →
        mainDownloadPhase st url resp aid = ⟨none, false, true, false⟩) := by
  by_cases h : st = "COMPLETED" ∧ strTruthy url = true
  · simp [mainDownloadPhase, h, download_activity_csv, hok]
  · simp [mainDownloadPhase, h]

/-- Witness for C8: status COMPLETED with a URL present and a 200 download
yields a path; the same theorem instance also certifies the no-error and
not-ready clauses. -/
theorem c8_maybe_download_witness :
    ((mainDownloadPhase "COMPLETED" (some "https://csv") ⟨200, none, "body"⟩
        "A1").path.isSome
      ↔ ("COMPLETED" = "COMPLETED" ∧ strTruthy (some "https://csv") = true)) ∧
    (mainDownloadPhase "COMPLETED" (some "https://csv") ⟨200, none, "body"⟩
        "A1").raisedError = false ∧
    (¬ ("COMPLETED" = "COMPLETED" ∧ strTruthy (some "https://csv") = true) →
        mainDownloadPhase "COMPLETED" (some "https://csv") ⟨200, none, "body"⟩
          "A1" = ⟨none, false, true, false⟩) :=
  c8_maybe_download "COMPLETED" (some "https://csv") ⟨200, none, "body"⟩ "A1"
    rfl

/-- Counterexample to C9 as stated: a creation response with no
server-assigned id makes main print a WARN and return normally — the
continuation is not a raised error, so the run does not abort with an
error. -/
theorem c9_counterexample :
    mainAfterSubmit ⟨none⟩ = .stopWithWarning ∧
    (mainAfterSubmit ⟨none⟩).isFatal = false :=
  ⟨rfl, rfl⟩

/-- Claim C9 as amended: a creation response with a missing or empty activity
id makes the run stop before any status poll or download, emitting a warning
rather than aborting with an error. -/
theorem c9_missing_id_warns (resp : SubmitResp)
    (h : strTruthy resp.dataId = false) :
    mainAfterSubmit resp = .stopWithWarning ∧
    (mainAfterSubmit resp).isFatal = false := by
  obtain ⟨dataId⟩ := resp
  rcases dataId with _ | s
  · exact ⟨rfl, rfl⟩
  · have hs : s.isEmpty = true := by simpa [strTruthy] using h
    simp [mainAfterSubmit, hs, SubmitFollowup.isFatal]

/-- Witness for C9 (amended): an empty-string id stops the run with the
warning continuation. -/
theorem c9_missing_id_warns_witness :
    mainAfterSubmit ⟨some ""⟩ = .stopWithWarning ∧
    (mainAfterSubmit ⟨some ""⟩).isFatal = false :=
  c9_missing_id_warns ⟨some ""⟩ (by decide)

end AxM
